import Mathlib

/-!
Shallow embedding of the Sentinel AI browser extension
(`src/extension/background.js`, plus the interstitial logic `blocked.js`).

The background service worker intercepts navigations (`onBeforeNavigate`),
consults the Classification Service (`POST /predict/url`), redirects to the
`blocked.html` interstitial on a phishing verdict, keeps a one-shot bypass
set fed by `bypass_url` messages, logs scans (`logScan`), and scans completed
downloads (`downloads.onChanged`).

Modelling conventions:
* JS numbers carrying risk scores are rationals (ℚ); timestamps and sizes
  are integers (ℤ).
* A nullable / possibly-absent JSON field is an `Option`; JS truthiness
  defaulting `x || d` is `jsOrQ` / `jsOrStr` (where `0`, `null`, missing and
  `""` are falsy).
* Network calls are parameters of the handler: a `none` outcome is a fetch
  or JSON-parsing failure that lands in the `catch` block.
* The `bypassedUrls` JS `Set` is a `Finset String`.
* Effects (tab redirect, storage write, notification) are returned as data
  rather than performed; query-string serialisation of the redirect target
  (encodeURIComponent / JSON.stringify) is abstracted into a structured
  payload carrying exactly the fields that background.js interpolates.
-/

namespace SentinelAI

/-- `listStarts s pre` is true when `pre` is an initial run of `s`
(character-list form of JS `String.prototype.startsWith`). -/
def listStarts : List Char → List Char → Bool
  | _, [] => true
  | [], _ :: _ => false
  | c :: s, d :: p => c = d && listStarts s p

/-- `strStarts s pre` mirrors JS `s.startsWith(pre)`. -/
def strStarts (s pre : String) : Bool :=
  listStarts s.data pre.data

/-- `listIncl s sub` is true when `sub` occurs contiguously anywhere in `s`
(character-list form of JS `String.prototype.includes`). -/
def listIncl (sub : List Char) : List Char → Bool
  | [] => listStarts [] sub
  | c :: t => listStarts (c :: t) sub || listIncl sub t

/-- `strIncl s sub` mirrors JS `s.includes(sub)`. -/
def strIncl (s sub : String) : Bool :=
  listIncl sub.data s.data

/-- JS `x || d` for a nullable number `x`: `null`/missing and `0` are falsy. -/
def jsOrQ (x : Option ℚ) (d : ℚ) : ℚ :=
  match x with
  | none => d
  | some r => if r = 0 then d else r

/-- JS `x || d` for a nullable string `x`: `null`/missing and `""` are falsy. -/
def jsOrStr (x : Option String) (d : String) : String :=
  match x with
  | none => d
  | some s => if s = "" then d else s

/-- JS truthiness of a nullable string (used for `request.url` guards). -/
def jsTruthyStr : Option String → Bool
  | none => false
  | some s => s ≠ ""

/-- The fields of a `chrome.webNavigation.onBeforeNavigate` event that
`background.js` reads: `frameId`, `url`, `tabId`. -/
structure NavDetails where
  frameId : ℤ
  url : String
  tabId : ℤ
  deriving DecidableEq

/-- The JSON body returned by `POST /predict/url` as `background.js` reads
it: `data.prediction`, `data.risk_score`, `data.explanations`, each possibly
absent or null. -/
structure ApiResponse where
  prediction : Option String
  risk_score : Option ℚ
  explanations : Option (List String)
  deriving DecidableEq

/-- The arguments `background.js` passes to `logScan` (background.js line
147): the raw url, `data.risk_score || 0`, `data.prediction || "unknown"`. -/
structure LogCall where
  url : String
  risk : ℚ
  prediction : String
  deriving DecidableEq

/-- The redirect target built in the phishing branch (background.js lines
150–155): `chrome.runtime.getURL("blocked.html?url=…&risk=…&reasons=…")`.
The query-string serialisation is abstracted: the structure carries exactly
the values interpolated into the string. -/
structure RedirectTarget where
  extensionId : String
  page : String
  blockedUrl : String
  risk : ℚ
  reasons : List String
  deriving DecidableEq

/-- Everything observable about one run of the `onBeforeNavigate` handler:
the bypass set afterwards, whether the fetch to `/predict/url` was
attempted (the `Checking` phase), the `logScan` call if one was made, and
the `chrome.tabs.update` redirect target if one was issued. -/
structure NavResult where
  bypassedUrls : Finset String
  called : Bool
  logged : Option LogCall
  redirect : Option RedirectTarget
  deriving DecidableEq

/-- The `chrome.webNavigation.onBeforeNavigate` listener of `background.js`
(lines 124–160; the variant at lines 15–55 is identical except that it has
no `logScan` call). `rid` is `chrome.runtime.id`; `svcResult` is the
outcome of `await fetch(…/predict/url)` + `await response.json()`, with
`none` meaning the fetch or parse threw (the `catch` block). -/
def onBeforeNavigate (rid : String) (svcResult : Option ApiResponse)
    (bypassedUrls : Finset String) (details : NavDetails) : NavResult :=
  if details.frameId ≠ 0 then ⟨bypassedUrls, false, none, none⟩
  else if strStarts details.url "http" = false then ⟨bypassedUrls, false, none, none⟩
  else if strIncl details.url rid = true then ⟨bypassedUrls, false, none, none⟩
  else if details.url ∈ bypassedUrls then
    ⟨bypassedUrls.erase details.url, false, none, none⟩
  else
    match svcResult with
    | none => ⟨bypassedUrls, true, none, none⟩
    | some data =>
      let logCall : LogCall :=
        ⟨details.url, jsOrQ data.risk_score 0, jsOrStr data.prediction "unknown"⟩
      if data.prediction = some "phishing" then
        ⟨bypassedUrls, true, some logCall,
          some ⟨rid, "blocked.html", details.url, jsOrQ data.risk_score (1/2),
            data.explanations.getD []⟩⟩
      else
        ⟨bypassedUrls, true, some logCall, none⟩

/-- A `chrome.runtime.onMessage` request as the bypass branch reads it. -/
structure Request where
  action : String
  url : Option String
  deriving DecidableEq

/-- The effect of the `onMessage` listener on the bypass set
(background.js lines 163–168): `bypass_url` with a truthy url inserts it;
every other message leaves the set unchanged. -/
def onMessage (bypassedUrls : Finset String) (request : Request) : Finset String :=
  if request.action = "bypass_url" ∧ jsTruthyStr request.url = true then
    insert (request.url.getD "") bypassedUrls
  else bypassedUrls

/-- `blocked.js` line 119: `Math.round(riskScore * 100)` — the percentage
shown on the interstitial. Mathlib `round` rounds halves up, as JS
`Math.round` does. -/
def riskPct (riskScore : ℚ) : ℤ :=
  round (riskScore * 100)

/-- One entry of the persisted `scanHistory` (background.js lines 102–107). -/
structure ScanEntry where
  domain : String
  risk : ℚ
  prediction : String
  timestamp : ℤ
  deriving DecidableEq

/-- `logScan` (background.js lines 99–121) as a function from the stored
history to the history written back. `hostname` is `new URL(url).hostname`,
with `none` meaning the URL constructor threw, which lands in the `catch`
block and leaves storage untouched. `tEntry` and `tCutoff` are the two
separate `Date.now()` reads (entry timestamp, line 106; trim cutoff,
line 114). -/
def logScan (hostname : Option String) (riskScore : ℚ) (prediction : String)
    (tEntry tCutoff : ℤ) (scanHistory : List ScanEntry) : List ScanEntry :=
  match hostname with
  | none => scanHistory
  | some domain =>
    let entry : ScanEntry := ⟨domain, riskScore, prediction, tEntry⟩
    let history := scanHistory ++ [entry]
    let thirtyDaysAgo := tCutoff - 30 * 24 * 60 * 60 * 1000
    history.filter (fun e => decide (thirtyDaysAgo < e.timestamp))

/-- `chrome.downloads.onChanged` delta: the `state` field with its
`current` value, plus the download `id` used for the search. -/
structure DlState where
  current : Option String
  deriving DecidableEq

/-- The fields of a `downloads.onChanged` delta that the handler reads. -/
structure DownloadDelta where
  id : ℤ
  state : Option DlState
  deriving DecidableEq

/-- The fields of a `chrome.downloads.search` item that the handler reads:
`filename` (a path), `fileSize` (bytes), `url`. -/
structure DownloadItem where
  filename : String
  fileSize : ℤ
  url : String
  deriving DecidableEq

/-- The JSON body returned by `POST /scan/file` as the handler reads it:
`result.verdict`, `result.risk_score`, `result.reasons`. -/
structure ScanFileResponse where
  verdict : Option String
  risk_score : Option ℚ
  reasons : List String
  deriving DecidableEq

/-- `MAX_SCAN_SIZE` (background.js line 197): `10 * 1024 * 1024` bytes. -/
def MAX_SCAN_SIZE : ℤ := 10 * 1024 * 1024

/-- Character-list form of JS `String.prototype.split` with a one-character
separator: splits into the (never empty) list of chunks between
occurrences of `sep`. -/
def splitOnChar (sep : Char) : List Char → List (List Char)
  | [] => [[]]
  | c :: rest =>
    let r := splitOnChar sep rest
    if c = sep then [] :: r
    else
      match r with
      | [] => [[c]]
      | h :: t => (c :: h) :: t

/-- `filePath.split("/").pop().split("\\").pop()` (background.js line 210):
the last path component across both separators. -/
def basename (filePath : String) : String :=
  let afterSlash := (splitOnChar '/' filePath.data).getLastD filePath.data
  let afterBackslash := (splitOnChar '\\' afterSlash).getLastD afterSlash
  String.mk afterBackslash

/-- One externally visible action of the `downloads.onChanged` handler, in
the order performed. `removeFile` is the `chrome.downloads` API call that
would delete a completed download; it is in the vocabulary so that its
absence from every run is a statable fact. -/
inductive DlAction where
  | search (id : ℤ)
  | fetchFile (url : String)
  | scanFile (fileName : String)
  | log (url : String) (risk : ℚ) (prediction : String)
  | notify (title : String) (message : String)
  | removeFile (id : ℤ)
  deriving DecidableEq

/-- Is this action a user notification (`chrome.notifications.create`)? -/
def DlAction.isNotify : DlAction → Bool
  | .notify _ _ => true
  | _ => false

/-- Is this action part of scanning (reading the file or calling the
Classification Service's `/scan/file`)? -/
def DlAction.isScan : DlAction → Bool
  | .fetchFile _ => true
  | .scanFile _ => true
  | _ => false

/-- Is this action a `removeFile` deletion? -/
def DlAction.isRemove : DlAction → Bool
  | .removeFile _ => true
  | _ => false

/-- The `chrome.downloads.onChanged` listener (background.js lines
199–267) as the chronological list of actions it performs. `searchResult`
is the item found by `chrome.downloads.search` (`none` when the list is
empty); `blobOk` is whether `fetch(fileUrl)`/`blob()` succeeded;
`scanResult` is the parsed `/scan/file` response, `none` meaning the scan
fetch or JSON parse threw. A thrown step lands in the `catch` block, so
actions already performed stay in the list and nothing follows. -/
def downloadsOnChanged (delta : DownloadDelta) (searchResult : Option DownloadItem)
    (blobOk : Bool) (scanResult : Option ScanFileResponse) : List DlAction :=
  match delta.state with
  | none => []
  | some st =>
    if st.current ≠ some "complete" then []
    else
      DlAction.search delta.id ::
      (match searchResult with
      | none => []
      | some item =>
        let fileName := basename item.filename
        if item.fileSize > MAX_SCAN_SIZE then []
        else
          DlAction.fetchFile item.url ::
          (if blobOk = false then []
          else
            DlAction.scanFile fileName ::
            (match scanResult with
            | none => []
            | some result =>
              DlAction.log ("file://" ++ fileName) (jsOrQ result.risk_score 0)
                (if result.verdict = some "safe" then "safe" else "phishing") ::
              (if result.verdict = some "dangerous" then
                [DlAction.notify "DANGER: Malicious File Detected"
                  (fileName ++ " is likely dangerous!\n" ++ result.reasons.headD "undefined")]
              else if result.verdict = some "suspicious" then
                [DlAction.notify "Warning: Suspicious File"
                  (fileName ++ " has suspicious indicators.\n" ++ result.reasons.headD "undefined")]
              else
                [DlAction.notify "File Scan: Safe" (fileName ++ " appears clean.")]))))

/-- The three notification titles the download scanner can emit
(background.js lines 244–262), by verdict: `dangerous`, `suspicious`, and
the catch-all `safe` tier. -/
def tierTitle (verdict : Option String) : String :=
  if verdict = some "dangerous" then "DANGER: Malicious File Detected"
  else if verdict = some "suspicious" then "Warning: Suspicious File"
  else "File Scan: Safe"

/-- The (negation of the) guard `!delta.state || delta.state.current !==
"complete"` at background.js line 201: is this delta a completion event? -/
def isCompleteDelta (delta : DownloadDelta) : Bool :=
  match delta.state with
  | none => false
  | some st => st.current = some "complete"

/-- C1: for every navigation event that reaches the `Checking` phase, if the
call to the Classification Service fails (fetch rejects or the response
body is not JSON: `svcResult = none`), the Gate fails open — no redirect is
issued, nothing is logged, and the bypass set is untouched, so the
navigation proceeds. -/
theorem failOpen_allows (rid : String) (s : Finset String) (d : NavDetails)
    (h : (onBeforeNavigate rid none s d).called = true) :
    (onBeforeNavigate rid none s d).redirect = none ∧
    (onBeforeNavigate rid none s d).logged = none ∧
    (onBeforeNavigate rid none s d).bypassedUrls = s := by
  unfold onBeforeNavigate at h ⊢
  split_ifs at h ⊢
  all_goals simp_all

/-- Witness for `failOpen_allows` at a concrete event that reaches
`Checking`. -/
theorem failOpen_allows_witness :
    (onBeforeNavigate "ridident" none ∅ ⟨0, "http://example.com", 7⟩).redirect = none ∧
    (onBeforeNavigate "ridident" none ∅ ⟨0, "http://example.com", 7⟩).logged = none ∧
    (onBeforeNavigate "ridident" none ∅ ⟨0, "http://example.com", 7⟩).bypassedUrls = ∅ :=
  failOpen_allows "ridident" ∅ ⟨0, "http://example.com", 7⟩ (by decide)

/-- C5: the Gate only enters the checking pipeline for top-level
navigations (`frameId = 0`) with a fetchable scheme (the source's test is
`url.startsWith("http")`), and any URL containing the extension's runtime
id — in particular the Gate's own interstitial pages — is allowed with no
classification check: on any of the three early-return filters the handler
is a complete no-op. -/
theorem observed_filters (rid : String) (svc : Option ApiResponse)
    (s : Finset String) (d : NavDetails)
    (h : d.frameId ≠ 0 ∨ strStarts d.url "http" = false ∨ strIncl d.url rid = true) :
    onBeforeNavigate rid svc s d = ⟨s, false, none, none⟩ := by
  unfold onBeforeNavigate
  split_ifs with h1 h2 h3 h4 <;> first
    | rfl
    | (rcases h with h | h | h <;> simp_all)

/-- Witness for `observed_filters` at a concrete subframe event. -/
theorem observed_filters_witness :
    onBeforeNavigate "ridident" none ∅ ⟨1, "http://sub.example", 4⟩ =
      ⟨∅, false, none, none⟩ :=
  observed_filters "ridident" none ∅ ⟨1, "http://sub.example", 4⟩ (Or.inl (by decide))

/-- C8: the self-page exemption is a bare substring test — any navigation
whose URL contains `chrome.runtime.id` anywhere is let through with no
service call, no bypass-entry consumption, no log and no redirect,
whatever the rest of the event looks like. -/
theorem selfPage_substring_skip (rid : String) (svc : Option ApiResponse)
    (s : Finset String) (d : NavDetails)
    (h : strIncl d.url rid = true) :
    onBeforeNavigate rid svc s d = ⟨s, false, none, none⟩ := by
  unfold onBeforeNavigate
  split_ifs with h1 h2 <;> simp_all

/-- Witness for `selfPage_substring_skip`: an ordinary http URL that merely
embeds the extension id in its query string is skipped, and a bypass entry
for that very URL is left unconsumed. -/
theorem selfPage_substring_skip_witness :
    onBeforeNavigate "abcdefgh" none {"http://evil.example/?q=abcdefgh"}
      ⟨0, "http://evil.example/?q=abcdefgh", 9⟩ =
      ⟨{"http://evil.example/?q=abcdefgh"}, false, none, none⟩ :=
  selfPage_substring_skip "abcdefgh" none {"http://evil.example/?q=abcdefgh"}
    ⟨0, "http://evil.example/?q=abcdefgh", 9⟩ (by decide)

/-- C2 counterexample: the claim quantifies over every URL `U`, but a grant
for a URL that never reaches the bypass check is never consumed. For
`U = "ftp://files.example"` (filtered out by the `startsWith("http")`
guard) the grant is still in the set after the first navigation, and the
second navigation does not enter `Checking` either. -/
theorem bypass_universal_counterexample :
    "ftp://files.example" ∈ (onBeforeNavigate "abcdefgh" none
        (onMessage ∅ ⟨"bypass_url", some "ftp://files.example"⟩)
        ⟨0, "ftp://files.example", 1⟩).bypassedUrls ∧
    (onBeforeNavigate "abcdefgh" none
        (onBeforeNavigate "abcdefgh" none
            (onMessage ∅ ⟨"bypass_url", some "ftp://files.example"⟩)
            ⟨0, "ftp://files.example", 1⟩).bypassedUrls
        ⟨0, "ftp://files.example", 2⟩).called = false := by
  decide

/-- C2 (amended): for every URL `U` that actually reaches the bypass check
— `U` starts with `"http"` and does not contain the runtime id — a single
`bypass_url` grant makes the first top-level navigation to `U` pass with no
`Checking` phase and no redirect, removes the entry (the check-and-remove
happens on that navigation and cannot happen again), and the second
navigation to `U` re-enters `Checking`. -/
theorem bypass_oneShot (rid U : String) (s : Finset String)
    (svc1 svc2 : Option ApiResponse) (t1 t2 : ℤ)
    (hhttp : strStarts U "http" = true) (hrid : strIncl U rid = false) :
    (onBeforeNavigate rid svc1 (onMessage s ⟨"bypass_url", some U⟩) ⟨0, U, t1⟩).called
      = false ∧
    (onBeforeNavigate rid svc1 (onMessage s ⟨"bypass_url", some U⟩) ⟨0, U, t1⟩).redirect
      = none ∧
    U ∉ (onBeforeNavigate rid svc1 (onMessage s ⟨"bypass_url", some U⟩)
          ⟨0, U, t1⟩).bypassedUrls ∧
    (onBeforeNavigate rid svc2
        (onBeforeNavigate rid svc1 (onMessage s ⟨"bypass_url", some U⟩)
          ⟨0, U, t1⟩).bypassedUrls
        ⟨0, U, t2⟩).called = true := by
  have hU : U ≠ "" := by
    intro h
    subst h
    simp [strStarts, listStarts] at hhttp
  have hmsg : onMessage s ⟨"bypass_url", some U⟩ = insert U s := by
    simp [onMessage, jsTruthyStr, hU]
  have h1 : onBeforeNavigate rid svc1 (insert U s) ⟨0, U, t1⟩
      = ⟨(insert U s).erase U, false, none, none⟩ := by
    unfold onBeforeNavigate
    simp [hhttp, hrid]
  have hnot : U ∉ (insert U s).erase U := Finset.not_mem_erase U _
  rw [hmsg, h1]
  refine ⟨rfl, rfl, hnot, ?_⟩
  unfold onBeforeNavigate
  cases svc2 with
  | none => simp [hhttp, hrid, hnot]
  | some data =>
    simp only [ne_eq, hhttp, hrid, hnot]
    split_ifs <;> simp_all

/-- Witness for `bypass_oneShot` at a concrete grant-then-navigate-twice
run. -/
theorem bypass_oneShot_witness :
    (onBeforeNavigate "abcdefgh" none
        (onMessage ∅ ⟨"bypass_url", some "http://one.example/page"⟩)
        ⟨0, "http://one.example/page", 1⟩).called = false ∧
    (onBeforeNavigate "abcdefgh" none
        (onMessage ∅ ⟨"bypass_url", some "http://one.example/page"⟩)
        ⟨0, "http://one.example/page", 1⟩).redirect = none ∧
    "http://one.example/page" ∉ (onBeforeNavigate "abcdefgh" none
        (onMessage ∅ ⟨"bypass_url", some "http://one.example/page"⟩)
        ⟨0, "http://one.example/page", 1⟩).bypassedUrls ∧
    (onBeforeNavigate "abcdefgh" none
        (onBeforeNavigate "abcdefgh" none
            (onMessage ∅ ⟨"bypass_url", some "http://one.example/page"⟩)
            ⟨0, "http://one.example/page", 1⟩).bypassedUrls
        ⟨0, "http://one.example/page", 2⟩).called = true :=
  bypass_oneShot "abcdefgh" "http://one.example/page" ∅ none none 1 2
    (by decide) (by decide)

/-- C3: once a navigation is in `Checking` and the Classification Service
answers, a `phishing` prediction redirects the tab to the `blocked.html`
interstitial carrying the verdict payload — the blocked URL, the risk score
(with JS falsy-defaulting to `1/2`), and the reasons list — while any other
prediction (safe, unknown, absent) produces no redirect; in both cases the
service was consulted. -/
theorem checking_verdict (rid : String) (data : ApiResponse)
    (s : Finset String) (d : NavDetails)
    (hframe : d.frameId = 0) (hhttp : strStarts d.url "http" = true)
    (hrid : strIncl d.url rid = false) (hbyp : d.url ∉ s) :
    (data.prediction = some "phishing" →
      (onBeforeNavigate rid (some data) s d).redirect =
        some ⟨rid, "blocked.html", d.url, jsOrQ data.risk_score (1/2),
          data.explanations.getD []⟩) ∧
    (data.prediction ≠ some "phishing" →
      (onBeforeNavigate rid (some data) s d).redirect = none) ∧
    (onBeforeNavigate rid (some data) s d).called = true := by
  unfold onBeforeNavigate
  by_cases hp : data.prediction = some "phishing" <;>
    simp [hframe, hhttp, hrid, hbyp, hp]

/-- Witness for `checking_verdict` at a concrete phishing verdict. -/
theorem checking_verdict_witness :
    (onBeforeNavigate "abcdefgh"
        (some ⟨some "phishing", some (9/10), some ["Raw IP host"]⟩) ∅
        ⟨0, "http://192.168.1.1/paypal-login/secure", 3⟩).redirect =
      some ⟨"abcdefgh", "blocked.html", "http://192.168.1.1/paypal-login/secure",
        9/10, ["Raw IP host"]⟩ := by
  have h := (checking_verdict "abcdefgh"
      ⟨some "phishing", some (9/10), some ["Raw IP host"]⟩ ∅
      ⟨0, "http://192.168.1.1/paypal-login/secure", 3⟩
      rfl (by decide) (by decide) (by decide)).1 rfl
  norm_num [jsOrQ] at h
  exact h

/-- C9: a phishing verdict whose `risk_score` is missing, null or exactly
`0` is carried to the interstitial with risk `1/2` (`data.risk_score ||
0.5`), and `blocked.js` (`Math.round(riskScore * 100)`) therefore displays
it as 50 %. -/
theorem risk_default_half (rid : String) (data : ApiResponse)
    (s : Finset String) (d : NavDetails)
    (hframe : d.frameId = 0) (hhttp : strStarts d.url "http" = true)
    (hrid : strIncl d.url rid = false) (hbyp : d.url ∉ s)
    (hphish : data.prediction = some "phishing")
    (hrs : data.risk_score = none ∨ data.risk_score = some 0) :
    ∃ rt : RedirectTarget,
      (onBeforeNavigate rid (some data) s d).redirect = some rt ∧
      rt.risk = 1/2 ∧ riskPct rt.risk = 50 := by
  have hhalf : jsOrQ data.risk_score (1/2) = 1/2 := by
    rcases hrs with h | h <;> simp [jsOrQ, h]
  refine ⟨⟨rid, "blocked.html", d.url, jsOrQ data.risk_score (1/2),
    data.explanations.getD []⟩, ?_, hhalf, ?_⟩
  · unfold onBeforeNavigate
    simp [hframe, hhttp, hrid, hbyp, hphish]
  · rw [hhalf]
    norm_num [riskPct, round_eq]

/-- Witness for `risk_default_half` at a concrete verdict with
`risk_score = 0`. -/
theorem risk_default_half_witness :
    ∃ rt : RedirectTarget,
      (onBeforeNavigate "abcdefgh" (some ⟨some "phishing", some 0, none⟩) ∅
        ⟨0, "http://phish.example/login", 2⟩).redirect = some rt ∧
      rt.risk = 1/2 ∧ riskPct rt.risk = 50 :=
  risk_default_half "abcdefgh" ⟨some "phishing", some 0, none⟩ ∅
    ⟨0, "http://phish.example/login", 2⟩ rfl (by decide) (by decide) (by decide)
    rfl (Or.inr rfl)

/-- C4 counterexample: at a completed download of 10 MiB + 1 byte the
handler performs only the metadata lookup — no file fetch, no scan call,
and also no notification of any kind, so no `unscanned` outcome is
reported to the user (the skip is a `console.log` only). -/
theorem oversize_silent_counterexample :
    downloadsOnChanged ⟨1, some ⟨some "complete"⟩⟩
        (some ⟨"/tmp/big.bin", 10485761, "http://dl.example/big.bin"⟩) true
        (some ⟨some "dangerous", some 1, ["packed executable"]⟩)
      = [DlAction.search 1] := by
  decide

/-- C4 (amended): for every completed download whose size exceeds the
10 MiB ceiling, the handler's only action is the `chrome.downloads.search`
metadata lookup: the file is never fetched or sent to the Classification
Service and never logged — but no notification is shown either, so the
oversize file is skipped silently rather than reported as `unscanned`
(while still never being reported as safe). -/
theorem oversize_skip (did : ℤ) (item : DownloadItem) (blobOk : Bool)
    (scanResult : Option ScanFileResponse)
    (hsize : MAX_SCAN_SIZE < item.fileSize) :
    downloadsOnChanged ⟨did, some ⟨some "complete"⟩⟩ (some item) blobOk scanResult
      = [DlAction.search did] := by
  unfold downloadsOnChanged
  simp [hsize]

/-- Witness for `oversize_skip` at a concrete 999999999-byte download. -/
theorem oversize_skip_witness :
    downloadsOnChanged ⟨2, some ⟨some "complete"⟩⟩
        (some ⟨"/d/huge.iso", 999999999, "http://dl.example/huge.iso"⟩) true
        (some ⟨some "dangerous", some 1, ["r"]⟩)
      = [DlAction.search 2] :=
  oversize_skip 2 ⟨"/d/huge.iso", 999999999, "http://dl.example/huge.iso"⟩ true
    (some ⟨some "dangerous", some 1, ["r"]⟩) (by decide)

/-- C6: the download scanner (i) does nothing unless the delta is a
completion event, (ii) never emits a `removeFile` deletion (it cannot
block or remove the completed file, it only looks up, fetches, scans, logs
and notifies), (iii) every notification it can emit carries one of exactly
three tier titles, determined from the verdict by `tierTitle`
(`dangerous` / `suspicious` / catch-all safe), and (iv) on a successful
scan of a small-enough file the `tierTitle`-mapped notification is
actually shown. -/
theorem download_scanner_contract (delta : DownloadDelta)
    (item : Option DownloadItem) (blobOk : Bool)
    (scanResult : Option ScanFileResponse) :
    (isCompleteDelta delta = false →
      downloadsOnChanged delta item blobOk scanResult = []) ∧
    (∀ a ∈ downloadsOnChanged delta item blobOk scanResult, a.isRemove = false) ∧
    (∀ t m, DlAction.notify t m ∈ downloadsOnChanged delta item blobOk scanResult →
      ∃ result, scanResult = some result ∧ t = tierTitle result.verdict) ∧
    (∀ itm result, item = some itm → itm.fileSize ≤ MAX_SCAN_SIZE →
      blobOk = true → scanResult = some result →
      isCompleteDelta delta = true →
      ∃ m, DlAction.notify (tierTitle result.verdict) m ∈
        downloadsOnChanged delta item blobOk scanResult) := by
  obtain ⟨did, dstate⟩ := delta
  rcases dstate with _ | ⟨cur⟩
  · refine ⟨fun _ => rfl, ?_, ?_, ?_⟩
    · intro a ha
      simp [downloadsOnChanged] at ha
    · intro t m hm
      simp [downloadsOnChanged] at hm
    · intro itm result _ _ _ _ hco
      simp [isCompleteDelta] at hco
  · by_cases hc : cur.current = some "complete"
    · refine ⟨fun hco => by simp [isCompleteDelta, hc] at hco, ?_, ?_, ?_⟩
      · intro a ha
        rcases item with _ | ⟨itm⟩
        · simp [downloadsOnChanged, hc] at ha
          subst ha; rfl
        · by_cases hsize : itm.fileSize > MAX_SCAN_SIZE
          · simp [downloadsOnChanged, hc, hsize] at ha
            subst ha; rfl
          · by_cases hb : blobOk = true
            · rcases scanResult with _ | ⟨result⟩
              · simp [downloadsOnChanged, hc, hsize, hb] at ha
                rcases ha with ha | ha | ha <;> subst ha <;> rfl
              · simp [downloadsOnChanged, hc, hsize, hb] at ha
                split_ifs at ha <;> simp only [List.mem_singleton] at ha <;>
                  rcases ha with ha | ha | ha | ha | ha <;> subst ha <;> rfl
            · simp at hb
              simp [downloadsOnChanged, hc, hsize, hb] at ha
              rcases ha with ha | ha <;> subst ha <;> rfl
      · intro t m hm
        rcases item with _ | ⟨itm⟩
        · simp [downloadsOnChanged, hc] at hm
        · by_cases hsize : itm.fileSize > MAX_SCAN_SIZE
          · simp [downloadsOnChanged, hc, hsize] at hm
          · by_cases hb : blobOk = true
            · rcases scanResult with _ | ⟨result⟩
              · simp [downloadsOnChanged, hc, hsize, hb] at hm
              · refine ⟨result, rfl, ?_⟩
                simp [downloadsOnChanged, hc, hsize, hb] at hm
                unfold tierTitle
                split_ifs at hm ⊢ <;> simp_all
            · simp at hb
              simp [downloadsOnChanged, hc, hsize, hb] at hm
      · intro itm result hitm hsize hb hscan _
        subst hitm; subst hb; subst hscan
        have hsize' : ¬ itm.fileSize > MAX_SCAN_SIZE := not_lt.mpr hsize
        refine ⟨?_, ?_⟩
        · exact (if result.verdict = some "dangerous" then
            basename itm.filename ++ " is likely dangerous!\n" ++ result.reasons.headD "undefined"
          else if result.verdict = some "suspicious" then
            basename itm.filename ++ " has suspicious indicators.\n" ++ result.reasons.headD "undefined"
          else basename itm.filename ++ " appears clean.")
        · simp [downloadsOnChanged, hc, hsize', tierTitle]
          split_ifs <;> simp
    · refine ⟨fun _ => ?_, ?_, ?_, ?_⟩
      · simp [downloadsOnChanged, hc]
      · intro a ha
        simp [downloadsOnChanged, hc] at ha
      · intro t m hm
        simp [downloadsOnChanged, hc] at hm
      · intro itm result _ _ _ _ hco
        simp [isCompleteDelta, hc] at hco

/-- Witness for `download_scanner_contract`: a non-completion delta
produces no actions at all. -/
theorem download_scanner_contract_witness :
    downloadsOnChanged ⟨3, some ⟨some "in_progress"⟩⟩ none true none = [] :=
  (download_scanner_contract ⟨3, some ⟨some "in_progress"⟩⟩ none true none).1
    (by decide)

/-- C10: any completed `logScan` write (the `new URL(url)` parse succeeded,
so the filter at background.js line 115 ran) leaves only entries whose
timestamp is strictly newer than the 30-day cutoff computed from the
`Date.now()` read at line 114. -/
theorem logScan_trims (h : String) (riskScore : ℚ) (prediction : String)
    (tEntry tCutoff : ℤ) (scanHistory : List ScanEntry) (e : ScanEntry)
    (hmem : e ∈ logScan (some h) riskScore prediction tEntry tCutoff scanHistory) :
    tCutoff - 30 * 24 * 60 * 60 * 1000 < e.timestamp := by
  unfold logScan at hmem
  simp only [List.mem_filter, decide_eq_true_eq] at hmem
  exact hmem.2

/-- Witness for `logScan_trims` at a concrete one-entry write. -/
theorem logScan_trims_witness :
    (5 : ℤ) - 30 * 24 * 60 * 60 * 1000 <
      (⟨"example.com", 0, "safe", 5⟩ : ScanEntry).timestamp :=
  logScan_trims "example.com" 0 "safe" 5 5 [] ⟨"example.com", 0, "safe", 5⟩
    (by decide)

end SentinelAI
